import Mathlib

/-!
Verification of the `film-scan-crop` repository against its natural-language
specification.

The supplied source consists of two packaging files, `build.py` (163 lines)
and `setup.py` (75 lines).  Their control flow is embedded shallowly below.
The computer-vision core (`processImage` and its components) is not present in
the supplied source; the specification designs it from first principles, so
those definitions are modelled from the spec's words and are marked as such in
their doc comments.
-/

namespace ScanCrop

/-! ## Packaging scaffolding: file inventory (src/build.py, src/setup.py) -/

/-- Number of lines of `src/build.py` (163 lines, final line empty). -/
def buildPyLineCount : Nat := 163

/-- Number of lines of `src/setup.py` (75 lines; the final line `)` carries no
trailing newline but is a line of text). -/
def setupPyLineCount : Nat := 75

/-- Top-level functions defined in `src/build.py`. -/
def buildPyDefinedFunctions : List String :=
  ["run_command", "build_with_pyinstaller", "build_with_nuitka",
   "create_build_script", "main"]

/-- Top-level functions defined in `src/setup.py` (besides the module-level
`setup(...)` call). -/
def setupPyDefinedFunctions : List String :=
  ["read_readme", "get_version"]

/-- The operations of the computer-vision core named by the specification
(`processImage`, `buildEdgeMap`, `detectCandidates`, `refine`,
`resolveOrientation`, `crop`). -/
def coreVisionOperations : List String :=
  ["processImage", "buildEdgeMap", "detectCandidates", "refine",
   "resolveOrientation", "crop"]

/-- The `description` argument passed to `setup()` in `src/setup.py`, line 32. -/
def setupDescription : String :=
  "Film negative/positive crop detection tool with automatic border detection"

/-! ## src/build.py: `run_command` and `main` -/

/-- Python exceptions relevant to the embedded scaffolding. -/
inductive PyExc where
  | calledProcessError (exitCode : Nat)
  | indexError
deriving DecidableEq, Repr

/-- `subprocess.run(cmd, check=True, ...)`: returns normally when the command
exits with status 0 and raises `CalledProcessError` otherwise (`build.py`
line 18). The started command is abstracted by its exit status. -/
def subprocessRunCheck (exitCode : Nat) : Except PyExc Unit :=
  if exitCode = 0 then .ok () else .error (.calledProcessError exitCode)

/-- `run_command` from `src/build.py` lines 12-25: runs the command with
`check=True`, returns `True` on success and catches `CalledProcessError`,
returning `False`.  The command is abstracted by the exit status it ends
with once started. -/
def run_command (exitCode : Nat) : Except PyExc Bool :=
  match subprocessRunCheck exitCode with
  | .ok _ => .ok true
  | .error (.calledProcessError _) => .ok false
  | .error e => .error e

/-- The two executable-build targets `main` recognizes as builds. -/
inductive BuildTarget where
  | pyinstaller
  | nuitka
deriving DecidableEq, Repr

/-- `main` from `src/build.py` lines 126-159, abstracted to the process exit
status it produces.  `argv` is `sys.argv[1:]`; `buildOk t` is the success
value returned by `build_with_pyinstaller` / `build_with_nuitka` when target
`t` is built.  `sys.exit(1)` is reached only on a failed recognized build;
every other path falls off the end of `main` (exit status 0). -/
def mainExit (argv : List String) (buildOk : BuildTarget → Bool) : Nat :=
  match argv with
  | [] => 0
  | a :: _ =>
    let target := a.toLower
    if target = "pyinstaller" then (if buildOk .pyinstaller then 0 else 1)
    else if target = "nuitka" then (if buildOk .nuitka then 0 else 1)
    else 0

/-! ## src/setup.py: `get_version` -/

/-- Quote characters stripped by `.strip('"\x27')`: `"` (34) and `'` (39). -/
def isQuoteChar (c : Char) : Bool :=
  c == Char.ofNat 34 || c == Char.ofNat 39

/-- Python `s.strip('"\x27')`: remove leading and trailing quote characters. -/
def stripQuotes (s : String) : String :=
  String.mk (((s.data.dropWhile isQuoteChar).reverse.dropWhile isQuoteChar).reverse)

/-- `line.split('=')[1].strip().strip('"\x27')` from `setup.py` line 24:
`IndexError` when the line holds no `=`. -/
def extractVersion (line : String) : Except PyExc String :=
  match (line.splitOn "=").get? 1 with
  | none => .error .indexError
  | some part => .ok (stripQuotes part.trim)

/-- Python `line.startswith(pre)`. -/
def pyStartsWith (line pre : String) : Bool :=
  pre.data.isPrefixOf line.data

/-- The `for line in f` loop of `get_version` (`setup.py` lines 22-24): the
first line starting with `__version__` is parsed; if none is found the loop
ends and the fallback is returned. -/
def getVersionLoop : List String → Except PyExc String
  | [] => .ok "0.1.0"
  | line :: rest =>
    if pyStartsWith line "__version__" then extractVersion line
    else getVersionLoop rest

/-- `get_version` from `src/setup.py` lines 18-25.  The filesystem state is
abstracted to the content of `scan_crop/__init__.py`: `none` when the file
does not exist (the `os.path.exists` test fails, `setup.py` line 20), `some
lines` when it exists with those lines. -/
def get_version (initFile : Option (List String)) : Except PyExc String :=
  match initFile with
  | none => .ok "0.1.0"
  | some lines => getVersionLoop lines

/-! ## Computer-vision core (modelled from the spec)

The repository's border-detection logic is not present under `src/`; the
specification (sections 3-7) designs it.  Every definition below is modelled
from the spec's words. -/

/-- Modelled from the spec: errors of the core (spec section 7).  The actual
error taxonomy is missing from the supplied source; only `InvalidImage` is
raised by the core itself. -/
inductive CoreError where
  | invalidImage
deriving DecidableEq, Repr

/-- Modelled from the spec: an immutable 2D grid of pixels, width x height
(spec section 3); the grid is single-channel luminance (a multi-channel image
is converted to luminance before anything else, spec section 4.1), stored
row-major. -/
structure Image where
  width : Nat
  height : Nat
  pixels : List Nat
deriving DecidableEq, Repr

/-- A valid (non-degenerate) image: nonzero dimensions and a pixel buffer of
the advertised size. -/
def Image.validb (img : Image) : Bool :=
  decide (0 < img.width) && decide (0 < img.height) &&
    decide (img.pixels.length = img.width * img.height)

/-- Pixel read at column `x`, row `y` (0 outside the buffer). -/
def Image.pixel (img : Image) (x y : Nat) : Nat :=
  img.pixels.getD (y * img.width + x) 0

/-- Modelled from the spec: the configuration of `processImage` with its
fields (spec section 6); the actual values are missing from the supplied
source, so each field is an explicit parameter. -/
structure Config where
  minRegionAreaFraction : ℚ
  minMaskPixelCount : Nat
  adaptiveThresholdPercentile : Nat
  rotationSearchRangeDegrees : Nat
  rotationImprovementThreshold : ℚ
  confidenceThreshold : ℚ
  expectedAspectRatio : ℚ
deriving DecidableEq, Repr

/-- Modelled from the spec: a same-dimension single-channel scalar field
derived from an Image (spec section 3). -/
structure EdgeMap where
  width : Nat
  height : Nat
  values : List Nat
deriving DecidableEq, Repr

/-- Absolute gradient magnitude at a pixel: sum of the absolute forward
differences to the right and downward neighbours (clamped at the border).
Built on absolute magnitude, not signed brightness, so the same operator
works on negatives and positives (spec section 4.1). -/
def gradAt (img : Image) (x y : Nat) : Nat :=
  let c : Int := img.pixel x y
  let r : Int := if x + 1 < img.width then img.pixel (x + 1) y else c
  let d : Int := if y + 1 < img.height then img.pixel x (y + 1) else c
  (r - c).natAbs + (d - c).natAbs

/-- The EdgeMap of an image: the absolute-gradient operator applied at every
pixel (the payload of `buildEdgeMap` on a valid image). -/
def edgeMapOf (img : Image) : EdgeMap :=
  ⟨img.width, img.height,
    (List.range (img.width * img.height)).map
      (fun i => gradAt img (i % img.width) (i / img.width))⟩

/-- Modelled from the spec: `buildEdgeMap(image) -> EdgeMap` (spec section
4.1): the only failure mode is a degenerate (zero-size or malformed) input,
which fails with `InvalidImage`. -/
def buildEdgeMap (img : Image) : Except CoreError EdgeMap :=
  if img.validb then .ok (edgeMapOf img) else .error .invalidImage

/-- Adaptive percentile-based threshold (spec section 4.2): the value at the
`p`-th percentile position of the sorted value list. -/
def percentileThreshold (vals : List Nat) (p : Nat) : Nat :=
  let sorted := List.insertionSort (· ≤ ·) vals
  sorted.getD (min (p * vals.length / 100) (vals.length - 1)) 0

/-- The "content" pixels of the binary mask: edge-map positions whose value
reaches the adaptive threshold, as `(x, y)` coordinates. -/
def maskPoints (em : EdgeMap) (cfg : Config) : List (Nat × Nat) :=
  let thr := percentileThreshold em.values cfg.adaptiveThresholdPercentile
  (List.range (em.width * em.height)).filterMap fun i =>
    if thr ≤ em.values.getD i 0 then some (i % em.width, i / em.width) else none

/-- The 4-neighbours of a grid point (truncated at the coordinate axes). -/
def neighbors (p : Nat × Nat) : List (Nat × Nat) :=
  [(p.1 + 1, p.2), (p.1, p.2 + 1)] ++
    (if 0 < p.1 then [(p.1 - 1, p.2)] else []) ++
    (if 0 < p.2 then [(p.1, p.2 - 1)] else [])

/-- Label of a point in a labelling (its own index when absent). -/
def labelOf (labels : List ((Nat × Nat) × Nat)) (p : Nat × Nat) (dflt : Nat) : Nat :=
  (labels.lookup p).getD dflt

/-- One bounded label-relaxation pass of connected-component labelling: every
mask point takes the minimum of its own label and its in-mask neighbours'
labels (an explicit bounded loop rather than unbounded recursion, spec
section 9). -/
def relaxStep (pts : List (Nat × Nat)) (labels : List ((Nat × Nat) × Nat)) :
    List ((Nat × Nat) × Nat) :=
  labels.map fun pl =>
    (pl.1, (neighbors pl.1).foldl
      (fun acc q => if pts.contains q then min acc (labelOf labels q acc) else acc)
      pl.2)

/-- Connected-component labelling of the mask points of a `w x h` grid: start
from each point's row-major index and relax `w * h` times (enough passes for
the minimum label to traverse any path in the grid, and a bound fixed by the
image size, never unbounded). -/
def componentLabels (pts : List (Nat × Nat)) (w h : Nat) :
    List ((Nat × Nat) × Nat) :=
  (relaxStep pts)^[w * h] (pts.map fun p => (p, p.2 * w + p.1))

/-- The connected components of the mask: one list of points per distinct
final label. -/
def componentsOf (pts : List (Nat × Nat)) (w h : Nat) : List (List (Nat × Nat)) :=
  let lbl := componentLabels pts w h
  ((lbl.map Prod.snd).dedup).map fun l =>
    (lbl.filter fun pl => pl.2 = l).map Prod.fst

/-- Modelled from the spec: a Candidate Region is an axis-aligned bounding box
plus a confidence score (spec section 3).  The box is stored as its smallest
and largest contained column and row. -/
structure CandidateRegion where
  x : Nat
  y : Nat
  xmax : Nat
  ymax : Nat
  pixelCount : Nat
  confidence : ℚ
deriving DecidableEq, Repr

/-- Pixel area of a candidate's bounding box. -/
def CandidateRegion.boxArea (c : CandidateRegion) : Nat :=
  (c.xmax - c.x + 1) * (c.ymax - c.y + 1)

/-- Build one Candidate Region from a connected component: bounding box,
pixel count, and confidence = pixel count / bounding-box area (rewards
rectangular, filled regions, spec section 4.2).  Components below the
minimum-area threshold or touching fewer than the configured number of mask
pixels are discarded (`none`). -/
def mkCandidate (imgArea : Nat) (cfg : Config) :
    List (Nat × Nat) → Option CandidateRegion
  | [] => none
  | p :: rest =>
    let xmin := rest.foldl (fun a q => min a q.1) p.1
    let xmax := rest.foldl (fun a q => max a q.1) p.1
    let ymin := rest.foldl (fun a q => min a q.2) p.2
    let ymax := rest.foldl (fun a q => max a q.2) p.2
    let count := rest.length + 1
    let area := (xmax - xmin + 1) * (ymax - ymin + 1)
    let c : CandidateRegion :=
      ⟨xmin, ymin, xmax, ymax, count, (count : ℚ) / (area : ℚ)⟩
    if cfg.minRegionAreaFraction * (imgArea : ℚ) ≤ (area : ℚ) ∧
        cfg.minMaskPixelCount ≤ count then some c else none

/-- All qualifying Candidate Regions of an edge map, one per connected
component of the thresholded mask, in component-discovery order. -/
def qualifyingCandidates (em : EdgeMap) (cfg : Config) : List CandidateRegion :=
  (componentsOf (maskPoints em cfg) em.width em.height).filterMap
    (mkCandidate (em.width * em.height) cfg)

/-- The ordering contract of `detectCandidates` (spec section 4.2): descending
confidence, ties by ascending left-edge x-coordinate, remaining ties by
ascending y. -/
def candLE (a b : CandidateRegion) : Prop :=
  b.confidence < a.confidence ∨
    (a.confidence = b.confidence ∧
      (a.x < b.x ∨ (a.x = b.x ∧ a.y ≤ b.y)))

instance : DecidableRel candLE := fun a b => by
  unfold candLE; infer_instance

instance : IsTotal CandidateRegion candLE := by
  constructor
  intro a b
  rcases lt_trichotomy a.confidence b.confidence with h | h | h
  · exact Or.inr (Or.inl h)
  · rcases lt_trichotomy a.x b.x with hx | hx | hx
    · exact Or.inl (Or.inr ⟨h, Or.inl hx⟩)
    · rcases Nat.le_total a.y b.y with hy | hy
      · exact Or.inl (Or.inr ⟨h, Or.inr ⟨hx, hy⟩⟩)
      · exact Or.inr (Or.inr ⟨h.symm, Or.inr ⟨hx.symm, hy⟩⟩)
    · exact Or.inr (Or.inr ⟨h.symm, Or.inl hx⟩)
  · exact Or.inl (Or.inl h)

instance : IsTrans CandidateRegion candLE := by
  constructor
  intro a b c hab hbc
  rcases hab with hab | ⟨habc, hab⟩
  · rcases hbc with hbc | ⟨hbcc, _⟩
    · exact Or.inl (hbc.trans hab)
    · exact Or.inl (hbcc ▸ hab)
  · rcases hbc with hbc | ⟨hbcc, hbc⟩
    · exact Or.inl (habc ▸ hbc)
    · refine Or.inr ⟨habc.trans hbcc, ?_⟩
      rcases hab with hab | ⟨habx, hab⟩
      · rcases hbc with hbc | ⟨hbcx, _⟩
        · exact Or.inl (hab.trans hbc)
        · exact Or.inl (hbcx ▸ hab)
      · rcases hbc with hbc | ⟨hbcx, hbc⟩
        · exact Or.inl (habx ▸ hbc)
        · exact Or.inr ⟨habx.trans hbcx, hab.trans hbc⟩

/-- Modelled from the spec: `detectCandidates(edgeMap, config)` (spec section
4.2) returns all qualifying components, ordered by descending confidence then
left-to-right reading position. -/
def detectCandidates (em : EdgeMap) (cfg : Config) : List CandidateRegion :=
  List.insertionSort candLE (qualifyingCandidates em cfg)

/-- Modelled from the spec: a Frame Rectangle is four corner points
(supporting non-axis-aligned quadrilaterals), a rotation-angle estimate, and
the source Candidate Region it was refined from (spec section 3).  The angle
estimate is the integer index of the chosen search angle (approximately
degrees). -/
structure FrameRect where
  c0 : ℚ × ℚ
  c1 : ℚ × ℚ
  c2 : ℚ × ℚ
  c3 : ℚ × ℚ
  angleIndex : Int
  source : CandidateRegion
deriving DecidableEq, Repr

/-- Slope denominator of the small-angle search: a slope of `k / 57`
approximates a rotation by `k` degrees (tan 1 degree is close to 1/57). -/
def angleDen : Int := 57

/-- Projection of a grid point onto the rotated axes for angle index `k`. -/
def proj (k : Int) (p : Nat × Nat) : Int × Int :=
  (angleDen * p.1 + k * p.2, angleDen * p.2 - k * p.1)

/-- Extent of a point set along the rotated axes. -/
structure Extent where
  umin : Int
  umax : Int
  vmin : Int
  vmax : Int
deriving DecidableEq, Repr

/-- Extent of a nonempty point list (head used as the seed). -/
def rotExtent (k : Int) (p : Nat × Nat) (rest : List (Nat × Nat)) : Extent :=
  rest.foldl
    (fun a q =>
      let uv := proj k q
      ⟨min a.umin uv.1, max a.umax uv.1, min a.vmin uv.2, max a.vmax uv.2⟩)
    ⟨(proj k p).1, (proj k p).1, (proj k p).2, (proj k p).2⟩

/-- Area of the minimal bounding rectangle of the points at angle index `k`
(the projections live on axes scaled by `sqrt (angleDen^2 + k^2)`). -/
def rotArea (k : Int) (p : Nat × Nat) (rest : List (Nat × Nat)) : ℚ :=
  let e := rotExtent k p rest
  (((e.umax - e.umin) * (e.vmax - e.vmin) : Int) : ℚ) /
    ((angleDen ^ 2 + k ^ 2 : Int) : ℚ)

/-- The bounded angular search grid: integer angle indices from `-r` to `r`
(spec section 4.3, a bounded range such as plus/minus 10 degrees). -/
def angleList (r : Nat) : List Int :=
  (List.range (2 * r + 1)).map fun i => Int.ofNat i - Int.ofNat r

/-- Map a point of the rotated frame back to image coordinates. -/
def backProj (k : Int) (u v : Int) : ℚ × ℚ :=
  let d : ℚ := ((angleDen ^ 2 + k ^ 2 : Int) : ℚ)
  (((angleDen * u - k * v : Int) : ℚ) / d, ((k * u + angleDen * v : Int) : ℚ) / d)

/-- The fitted quadrilateral at angle index `k`: corners of the minimal
bounding rectangle of the points, mapped back to image coordinates, in
counter-clockwise order. -/
def mkFrameRect (k : Int) (p : Nat × Nat) (rest : List (Nat × Nat))
    (src : CandidateRegion) : FrameRect :=
  let e := rotExtent k p rest
  ⟨backProj k e.umin e.vmin, backProj k e.umax e.vmin,
   backProj k e.umax e.vmax, backProj k e.umin e.vmax, k, src⟩

/-- Cross product of the edges `a -> b` and `b -> c`. -/
def cross (a b c : ℚ × ℚ) : ℚ :=
  (b.1 - a.1) * (c.2 - b.2) - (b.2 - a.2) * (c.1 - b.1)

/-- The Frame Rectangle invariant of spec section 3: the corners form a
convex, non-self-intersecting quadrilateral (every corner is a strict
left turn). -/
def IsConvexQuad (fr : FrameRect) : Prop :=
  0 < cross fr.c0 fr.c1 fr.c2 ∧ 0 < cross fr.c1 fr.c2 fr.c3 ∧
    0 < cross fr.c2 fr.c3 fr.c0 ∧ 0 < cross fr.c3 fr.c0 fr.c1

instance : DecidablePred IsConvexQuad := fun fr => by
  unfold IsConvexQuad; infer_instance

/-- Area of the quadrilateral by the shoelace formula (positive for
counter-clockwise corners). -/
def quadArea (fr : FrameRect) : ℚ :=
  ((fr.c0.1 * fr.c1.2 - fr.c1.1 * fr.c0.2) +
   (fr.c1.1 * fr.c2.2 - fr.c2.1 * fr.c1.2) +
   (fr.c2.1 * fr.c3.2 - fr.c3.1 * fr.c2.2) +
   (fr.c3.1 * fr.c0.2 - fr.c0.1 * fr.c3.2)) / 2

/-- The mask points of the candidate's local EdgeMap neighbourhood: the
refiner re-examines the thresholded edge map restricted to the candidate's
bounding box (spec section 4.3). -/
def localPoints (em : EdgeMap) (cfg : Config) (c : CandidateRegion) :
    List (Nat × Nat) :=
  (maskPoints em cfg).filter fun p =>
    decide (c.x ≤ p.1 ∧ p.1 ≤ c.xmax ∧ c.y ≤ p.2 ∧ p.2 ≤ c.ymax)

/-- Angle selection of the refiner (spec section 4.3): start from the
axis-aligned fit (angle index 0), search the bounded angular range for the
rotation minimizing the enclosed bounding area, and accept the rotated fit
only when its area reduction over the axis-aligned fit exceeds the
improvement threshold (else keep axis-aligned). -/
def chosenAngle (cfg : Config) (p : Nat × Nat) (rest : List (Nat × Nat)) : Int :=
  let axisA := rotArea 0 p rest
  let best := (angleList cfg.rotationSearchRangeDegrees).foldl
    (fun acc k => if rotArea k p rest < rotArea acc p rest then k else acc) 0
  if cfg.rotationImprovementThreshold * axisA < axisA - rotArea best p rest
  then best else 0

/-- Acceptance gate of the refiner: the fitted quadrilateral is returned only
when it meets the convexity invariant and the minimum-area invariant of spec
section 3 (`none` otherwise). -/
def acceptFrame (imgArea : Nat) (cfg : Config) (fr : FrameRect) :
    Option FrameRect :=
  if IsConvexQuad fr ∧
      cfg.minRegionAreaFraction * (imgArea : ℚ) ≤ quadArea fr
  then some fr else none

/-- Modelled from the spec: `refine(candidate, edgeMap) -> Frame Rectangle |
None` (spec section 4.3): fit a possibly rotated minimal bounding
quadrilateral to the candidate's local mask points; `none` (dropped, not an
error) when there are no points or the fit fails an invariant. -/
def refine (c : CandidateRegion) (em : EdgeMap) (cfg : Config) :
    Option FrameRect :=
  match localPoints em cfg c with
  | [] => none
  | p :: rest =>
    acceptFrame (em.width * em.height) cfg
      (mkFrameRect (chosenAngle cfg p rest) p rest c)

/-- The coarse rotations of spec section 4.4. -/
inductive Rotation where
  | r0
  | r90
  | r180
  | r270
deriving DecidableEq, Repr

/-- Squared distance between two rational points. -/
def sqDist (a b : ℚ × ℚ) : ℚ :=
  (b.1 - a.1) ^ 2 + (b.2 - a.2) ^ 2

/-- Modelled from the spec: `resolveOrientation(frameRectangle, image)` (spec
section 4.4).  Defaults to 0 degrees unless the frame's width/height ratio is
inverted relative to the configured expected aspect ratio, in which case it
rotates 90 degrees; 180-degree detection is out of scope.  Widths are compared
through squared side lengths. -/
def resolveOrientation (fr : FrameRect) (_img : Image) (cfg : Config) : Rotation :=
  let w2 := sqDist fr.c0 fr.c1
  let h2 := sqDist fr.c1 fr.c2
  if (1 < cfg.expectedAspectRatio ∧ w2 < h2) ∨
      (cfg.expectedAspectRatio < 1 ∧ h2 < w2)
  then .r90 else .r0

/-- Status of a CropResult (spec section 3). -/
inductive CropStatus where
  | success
  | lowConfidence
  | failed
deriving DecidableEq, Repr

/-- Modelled from the spec: the CropResult returned across the core boundary
(spec section 3): final cropped Image, the Frame Rectangle used, the applied
rotation, and a status. -/
structure CropResult where
  image : Image
  rect : FrameRect
  rotation : Rotation
  status : CropStatus
deriving DecidableEq, Repr

/-- Nat-valued side length of a quadrilateral edge (square root of the
squared distance, rounded through the ceiling). -/
def sideLen (a b : ℚ × ℚ) : Nat :=
  Nat.sqrt (Int.toNat ⌈sqDist a b⌉)

/-- Rotate a cropped image by a coarse rotation. -/
def rotateImage (r : Rotation) (img : Image) : Image :=
  match r with
  | .r0 => img
  | .r180 =>
    ⟨img.width, img.height,
      (List.range (img.width * img.height)).map fun i =>
        img.pixel (img.width - 1 - i % img.width) (img.height - 1 - i / img.width)⟩
  | .r90 =>
    ⟨img.height, img.width,
      (List.range (img.width * img.height)).map fun i =>
        img.pixel (i / img.height) (img.height - 1 - i % img.height)⟩
  | .r270 =>
    ⟨img.height, img.width,
      (List.range (img.width * img.height)).map fun i =>
        img.pixel (img.width - 1 - i / img.height) (i % img.height)⟩

/-- Source point of output pixel `(i, j)`: rectification maps the output
grid affinely onto the quadrilateral spanned by `c0 -> c1` and `c0 -> c3`. -/
def warpPoint (fr : FrameRect) (outW outH i j : Nat) : ℚ × ℚ :=
  let s : ℚ := (i : ℚ) / (outW : ℚ)
  let t : ℚ := (j : ℚ) / (outH : ℚ)
  (fr.c0.1 + s * (fr.c1.1 - fr.c0.1) + t * (fr.c3.1 - fr.c0.1),
   fr.c0.2 + s * (fr.c1.2 - fr.c0.2) + t * (fr.c3.2 - fr.c0.2))

/-- Nearest-pixel sample of the input image at a rational point. -/
def samplePixel (img : Image) (p : ℚ × ℚ) : Nat :=
  img.pixel (Int.toNat ⌊p.1⌋) (Int.toNat ⌊p.2⌋)

/-- Modelled from the spec: `crop(image, frameRectangle, rotation) ->
CropResult` (spec section 4.5).  Rectifies the quadrilateral into an
axis-aligned output of its measured side lengths, applies the coarse
rotation afterwards, and always succeeds: the status is `success` unless the
refiner's confidence was below the configured threshold, in which case it is
`lowConfidence` (output still produced). -/
def crop (img : Image) (fr : FrameRect) (rot : Rotation) (cfg : Config) :
    CropResult :=
  let outW := sideLen fr.c0 fr.c1
  let outH := sideLen fr.c0 fr.c3
  let rectified : Image :=
    ⟨outW, outH,
      (List.range (outW * outH)).map fun i =>
        samplePixel img (warpPoint fr outW outH (i % outW) (i / outW))⟩
  { image := rotateImage rot rectified
    rect := fr
    rotation := rot
    status :=
      if fr.source.confidence < cfg.confidenceThreshold then .lowConfidence
      else .success }

/-- The Frame Rectangles of one pipeline invocation: every detected candidate
refined, candidates whose refinement fails dropped (spec section 4.3). -/
def refinedFrames (em : EdgeMap) (cfg : Config) : List FrameRect :=
  (detectCandidates em cfg).filterMap fun c => refine c em cfg

/-- The CropResult sequence produced for a valid image (the `.ok` payload of
`processImage`). -/
def pipelineResults (img : Image) (em : EdgeMap) (cfg : Config) :
    List CropResult :=
  (refinedFrames em cfg).map fun fr =>
    crop img fr (resolveOrientation fr img cfg) cfg

/-- The CropResult sequence `processImage` produces for an image (its `.ok`
payload when the image is valid). -/
def coreResults (img : Image) (cfg : Config) : List CropResult :=
  pipelineResults img (edgeMapOf img) cfg

/-- Modelled from the spec: the core entry point `processImage(image, config)
-> sequence of CropResult` (spec section 6), composed of EdgeMap Builder,
Border Detector, Rectangle Refiner, Orientation Resolver and
Cropper/Rectifier (spec section 2); the only error is `InvalidImage` on a
degenerate input (spec section 7). -/
def processImage (img : Image) (cfg : Config) :
    Except CoreError (List CropResult) :=
  match buildEdgeMap img with
  | .error e => .error e
  | .ok em => .ok (pipelineResults img em cfg)

/-- One call sequence against the core: each call is an (image, config) pair;
the core holds no state between calls, so the outputs are the pointwise
images of the calls. -/
def runCalls (calls : List (Image × Config)) :
    List (Except CoreError (List CropResult)) :=
  calls.map fun c => processImage c.1 c.2

/-- The lowercased first command-line argument `main` dispatches on. -/
def requestedTarget (argv : List String) : Option String :=
  argv.head?.map String.toLower

/-- Boolean form of the Frame Rectangle invariant of spec section 3. -/
def frameOkb (imgArea : Nat) (cfg : Config) (fr : FrameRect) : Bool :=
  decide (IsConvexQuad fr) &&
    decide (cfg.minRegionAreaFraction * (imgArea : ℚ) ≤ quadArea fr)

/-- A status that represents a normal (non-exceptional) outcome: `success` or
`lowConfidence`, never `failed`. -/
def statusNormalb (r : CropResult) : Bool :=
  match r.status with
  | .failed => false
  | _ => true

/-! ## Helper lemmas -/

theorem length_relaxStep (pts : List (Nat × Nat))
    (labels : List ((Nat × Nat) × Nat)) :
    (relaxStep pts labels).length = labels.length := by
  simp [relaxStep]

theorem length_iterate_relaxStep (pts : List (Nat × Nat)) (n : Nat)
    (labels : List ((Nat × Nat) × Nat)) :
    ((relaxStep pts)^[n] labels).length = labels.length := by
  induction n with
  | zero => rfl
  | succ n ih => rw [Function.iterate_succ_apply', length_relaxStep, ih]

theorem length_componentLabels (pts : List (Nat × Nat)) (w h : Nat) :
    (componentLabels pts w h).length = pts.length := by
  simp [componentLabels, length_iterate_relaxStep]

theorem length_componentsOf_le (pts : List (Nat × Nat)) (w h : Nat) :
    (componentsOf pts w h).length ≤ pts.length := by
  simp only [componentsOf, List.length_map]
  calc ((componentLabels pts w h).map Prod.snd).dedup.length
      ≤ ((componentLabels pts w h).map Prod.snd).length :=
        (List.dedup_sublist _).length_le
    _ = pts.length := by simp [length_componentLabels]

theorem length_maskPoints_le (em : EdgeMap) (cfg : Config) :
    (maskPoints em cfg).length ≤ em.width * em.height := by
  have h := List.length_filterMap_le
    (fun i => if percentileThreshold em.values cfg.adaptiveThresholdPercentile ≤
        em.values.getD i 0 then some (i % em.width, i / em.width) else none)
    (List.range (em.width * em.height))
  simpa [maskPoints] using h

theorem length_qualifyingCandidates_le (em : EdgeMap) (cfg : Config) :
    (qualifyingCandidates em cfg).length ≤ em.width * em.height :=
  le_trans
    (le_trans (List.length_filterMap_le _ _)
      (length_componentsOf_le (maskPoints em cfg) em.width em.height))
    (length_maskPoints_le em cfg)

theorem length_detectCandidates (em : EdgeMap) (cfg : Config) :
    (detectCandidates em cfg).length = (qualifyingCandidates em cfg).length := by
  unfold detectCandidates
  exact List.length_insertionSort candLE (qualifyingCandidates em cfg)

theorem acceptFrame_some {imgArea : Nat} {cfg : Config} {fr fr' : FrameRect}
    (h : acceptFrame imgArea cfg fr = some fr') :
    IsConvexQuad fr' ∧
      cfg.minRegionAreaFraction * (imgArea : ℚ) ≤ quadArea fr' := by
  unfold acceptFrame at h
  split at h
  · cases h
    assumption
  · cases h

theorem refine_some {c : CandidateRegion} {em : EdgeMap} {cfg : Config}
    {fr : FrameRect} (h : refine c em cfg = some fr) :
    IsConvexQuad fr ∧
      cfg.minRegionAreaFraction * ((em.width * em.height : Nat) : ℚ) ≤
        quadArea fr := by
  unfold refine at h
  split at h
  · cases h
  · exact acceptFrame_some h

theorem crop_rect (img : Image) (fr : FrameRect) (rot : Rotation)
    (cfg : Config) : (crop img fr rot cfg).rect = fr := rfl

theorem crop_status (img : Image) (fr : FrameRect) (rot : Rotation)
    (cfg : Config) :
    (crop img fr rot cfg).status =
      if fr.source.confidence < cfg.confidenceThreshold then .lowConfidence
      else .success := rfl

theorem getVersionLoop_fallback (lines : List String)
    (h : lines.all (fun l => !(pyStartsWith l "__version__")) = true) :
    getVersionLoop lines = .ok "0.1.0" := by
  induction lines with
  | nil => rfl
  | cons l rest ih =>
    rw [List.all_cons, Bool.and_eq_true] at h
    rw [getVersionLoop, if_neg (by simpa using h.1)]
    exact ih h.2

/-! ## Claim theorems -/

/-- C1: the packaging scaffolding supplied as source (`src/build.py` together
with `src/setup.py`) totals exactly 238 lines, and none of the
computer-vision core operations is defined in these files. -/
theorem scaffolding_line_count_and_no_vision_core :
    buildPyLineCount + setupPyLineCount = 238 ∧
      (coreVisionOperations.all fun op =>
        !((buildPyDefinedFunctions ++ setupPyDefinedFunctions).contains op)) =
        true := by
  constructor
  · rfl
  · decide

/-- C2 (counterexample): the `description` argument passed to `setup()` does
not equal the lowercase string `"film negative/positive crop detection tool
with automatic border detection"` claimed (the source capitalizes `Film`). -/
theorem setup_description_not_lowercase :
    setupDescription ≠
      "film negative/positive crop detection tool with automatic border detection" := by
  decide

/-- C2 (amended): the `description` argument passed to `setup()` in
`src/setup.py` equals `"Film negative/positive crop detection tool with
automatic border detection"` (capital `F`). -/
theorem setup_description_exact :
    setupDescription =
      "Film negative/positive crop detection tool with automatic border detection" :=
  rfl

/-- C3: for every image and configuration the core produces a finite result
sequence, of length at most the pixel count of the image, and the angular
search grid is bounded by the configuration (2r + 1 angles for search range
r). -/
theorem processImage_bounded (img : Image) (cfg : Config) :
    (coreResults img cfg).length ≤ img.width * img.height ∧
      (angleList cfg.rotationSearchRangeDegrees).length =
        2 * cfg.rotationSearchRangeDegrees + 1 := by
  constructor
  · have h1 : (coreResults img cfg).length =
        (refinedFrames (edgeMapOf img) cfg).length := by
      simp [coreResults, pipelineResults]
    have h2 : (refinedFrames (edgeMapOf img) cfg).length ≤
        (detectCandidates (edgeMapOf img) cfg).length := by
      simpa [refinedFrames] using
        List.length_filterMap_le
          (fun c => refine c (edgeMapOf img) cfg)
          (detectCandidates (edgeMapOf img) cfg)
    have h3 := length_detectCandidates (edgeMapOf img) cfg
    have h4 := length_qualifyingCandidates_le (edgeMapOf img) cfg
    have h5 : (edgeMapOf img).width * (edgeMapOf img).height =
        img.width * img.height := rfl
    omega
  · rw [angleList, List.length_map, List.length_range]

/-- C4: the core is a pure function of (image, configuration): in any
sequence of invocations, two calls with the same image and config yield
identical CropResult sequences, independent of call position (no hidden or
shared mutable state). -/
theorem processImage_deterministic (calls : List (Image × Config))
    (i j : Nat) (h : calls[i]? = calls[j]?) :
    (runCalls calls)[i]? = (runCalls calls)[j]? := by
  unfold runCalls
  rw [List.getElem?_map, List.getElem?_map, h]

/-- C4 witness: two identical calls in a concrete call sequence yield
identical outputs. -/
theorem processImage_deterministic_witness :
    (runCalls [(⟨0, 0, []⟩, ⟨1/50, 4, 80, 2, 1/10, 1/2, 3/2⟩),
               (⟨0, 0, []⟩, ⟨1/50, 4, 80, 2, 1/10, 1/2, 3/2⟩)])[0]? =
      (runCalls [(⟨0, 0, []⟩, ⟨1/50, 4, 80, 2, 1/10, 1/2, 3/2⟩),
                 (⟨0, 0, []⟩, ⟨1/50, 4, 80, 2, 1/10, 1/2, 3/2⟩)])[1]? :=
  processImage_deterministic _ 0 1 rfl

/-- C5: every Frame Rectangle attached to a returned CropResult satisfies the
invariant: its corners form a convex, non-self-intersecting quadrilateral and
its area is at least `minimum-region-area-fraction` times the image area, so
a sub-threshold region never appears in the results. -/
theorem frame_rectangle_invariant (img : Image) (cfg : Config) :
    ((coreResults img cfg).all fun r =>
      frameOkb (img.width * img.height) cfg r.rect) = true := by
  rw [List.all_eq_true]
  intro r hr
  simp only [coreResults, pipelineResults, List.mem_map] at hr
  obtain ⟨fr, hfr, rfl⟩ := hr
  rw [refinedFrames, List.mem_filterMap] at hfr
  obtain ⟨c, _, hsome⟩ := hfr
  obtain ⟨h1, h2⟩ := refine_some hsome
  rw [crop_rect]
  simp only [frameOkb, Bool.and_eq_true, decide_eq_true_eq]
  exact ⟨h1, h2⟩

/-- C6: `detectCandidates` returns exactly the qualifying candidate regions
(as a permutation of them), ordered by the contract relation `candLE`:
descending confidence, ties by ascending left-edge x, remaining ties by
ascending y. -/
theorem detectCandidates_ordering (em : EdgeMap) (cfg : Config) :
    List.Sorted candLE (detectCandidates em cfg) ∧
      List.Perm (detectCandidates em cfg) (qualifyingCandidates em cfg) :=
  ⟨List.sorted_insertionSort candLE (qualifyingCandidates em cfg),
   List.perm_insertionSort candLE (qualifyingCandidates em cfg)⟩

/-- C7: the core errs only on malformed input: `processImage` returns
`InvalidImage` exactly on an invalid (degenerate) image and otherwise returns
the result sequence normally; an empty sequence and low-confidence results
are normal values — every returned status is `success` or `lowConfidence`
(never `failed`), and no refined frame is dropped (one CropResult per refined
Frame Rectangle). -/
theorem core_error_taxonomy (img : Image) (cfg : Config) :
    processImage img cfg =
      (if img.validb then .ok (coreResults img cfg) else .error .invalidImage) ∧
      ((coreResults img cfg).all statusNormalb = true) ∧
      (coreResults img cfg).length = (refinedFrames (edgeMapOf img) cfg).length := by
  refine ⟨?_, ?_, ?_⟩
  · by_cases h : img.validb <;>
      simp [processImage, buildEdgeMap, h, coreResults]
  · rw [List.all_eq_true]
    intro r hr
    simp only [coreResults, pipelineResults, List.mem_map] at hr
    obtain ⟨fr, _, rfl⟩ := hr
    simp only [statusNormalb, crop_status]
    by_cases hc : fr.source.confidence < cfg.confidenceThreshold <;> simp [hc]
  · simp [coreResults, pipelineResults]

/-- C8: `main` in `build.py` exits with status 1 exactly when a recognized
build target (`pyinstaller` or `nuitka`) is requested and its build fails;
every other case (successful build, `scripts`, unrecognized target, no
argument) exits with status 0. -/
theorem build_main_exit_status (argv : List String) (ok : BuildTarget → Bool) :
    (mainExit argv ok = 1 ↔
      ((requestedTarget argv = some "pyinstaller" ∧ ok .pyinstaller = false) ∨
       (requestedTarget argv = some "nuitka" ∧ ok .nuitka = false))) ∧
      (mainExit argv ok = 0 ∨ mainExit argv ok = 1) := by
  cases argv with
  | nil => simp [mainExit, requestedTarget]
  | cons a as =>
    simp only [mainExit, requestedTarget, List.head?_cons, Option.map_some,
      Option.some.injEq]
    by_cases h1 : a.toLower = "pyinstaller"
    · have hne : a.toLower ≠ "nuitka" := by rw [h1]; decide
      cases hok : ok BuildTarget.pyinstaller <;> simp [h1, hne, hok]
    · by_cases h2 : a.toLower = "nuitka"
      · cases hok : ok BuildTarget.nuitka <;> simp [h1, h2, hok]
      · simp [h1, h2]

/-- C9: `run_command` catches the `CalledProcessError` of a started command
that exits with non-zero status and returns `False` instead of propagating
it; it returns `True` exactly when the command exits with status 0 (so its
result is always a normal boolean, never an exception). -/
theorem run_command_catches (exitCode : Nat) :
    run_command exitCode = .ok (decide (exitCode = 0)) := by
  unfold run_command subprocessRunCheck
  by_cases h : exitCode = 0 <;> simp [h]

/-- C10: whenever `scan_crop/__init__.py` does not exist, or exists but
contains no line starting with `__version__`, `get_version` returns the
fallback `"0.1.0"`. -/
theorem get_version_fallback (initFile : Option (List String))
    (h : (initFile.getD []).all (fun l => !(pyStartsWith l "__version__")) = true) :
    get_version initFile = .ok "0.1.0" := by
  cases initFile with
  | none => rfl
  | some lines => exact getVersionLoop_fallback lines (by simpa using h)

/-- C10 witness: a concrete file content with no `__version__` line falls
back to `"0.1.0"`. -/
theorem get_version_fallback_witness :
    get_version (some ["import os", "x = 1"]) = .ok "0.1.0" :=
  get_version_fallback (some ["import os", "x = 1"]) (by decide)

end ScanCrop
